import Mathlib

/-!
Verification development for the Jaeger MCP client core: a shallow embedding
of the domain enum mappings, URL/port resolution, request building
(timestamps, durations), streaming aggregation, response decoding and the
error handlers of the gRPC and HTTP transport clients, with theorems about
the behaviours the specification describes.

JavaScript numbers holding millisecond/byte/port values are modelled as Nat,
attribute numeric values as Rat, protobufjs Long values as Int; JS
truthiness guards (`if (x)`) are modelled explicitly: 0, false, the empty
string and undefined are falsy.
-/

namespace Jaeger

/-! ## Canonical domain enums

Modelled from the spec: the `SpanKind`/`StatusCode` string enums live in
`src/domain/commons.ts`, which is not part of the provided sources; per the
spec the canonical string forms are {unspecified, internal, server, client,
producer, consumer} and {unset, ok, error}. -/

inductive SpanKind where
  | UNSPECIFIED | INTERNAL | SERVER | CLIENT | PRODUCER | CONSUMER
  deriving DecidableEq, Repr

/-- Modelled from the spec: canonical string value of the `SpanKind` enum
(the TS enum is string-valued; `toString()` yields this). -/
def SpanKind.toStr : SpanKind → String
  | .UNSPECIFIED => "unspecified"
  | .INTERNAL => "internal"
  | .SERVER => "server"
  | .CLIENT => "client"
  | .PRODUCER => "producer"
  | .CONSUMER => "consumer"

inductive StatusCode where
  | UNSET | OK | ERROR
  deriving DecidableEq, Repr

/-- Modelled from the spec: canonical string value of the `StatusCode` enum. -/
def StatusCode.toStr : StatusCode → String
  | .UNSET => "unset"
  | .OK => "ok"
  | .ERROR => "error"

/-- JS `String.prototype.toUpperCase` for ASCII, on the character list. -/
def jsToUpper (s : String) : String :=
  String.mk (s.toList.map fun c =>
    if 'a' ≤ c && c ≤ 'z' then Char.ofNat (c.toNat - 32) else c)

/-- JS `String.prototype.toLowerCase` for ASCII, on the character list. -/
def jsToLower (s : String) : String :=
  String.mk (s.toList.map fun c =>
    if 'A' ≤ c && c ≤ 'Z' then Char.ofNat (c.toNat + 32) else c)

/-- A JS `string | number` union value (argument of `toSpanKind`/`toStatusCode`). -/
inductive StrOrNum where
  | str (s : String)
  | num (q : ℚ)
  deriving DecidableEq, Repr

/-! ## domain/utils.ts -/

/-- `spanKindMapByString` of `src/domain/utils.ts` (keys are upper-case). -/
def spanKindMapByString (s : String) : Option SpanKind :=
  if s = "UNSPECIFIED" then some .UNSPECIFIED
  else if s = "INTERNAL" then some .INTERNAL
  else if s = "SERVER" then some .SERVER
  else if s = "CLIENT" then some .CLIENT
  else if s = "PRODUCER" then some .PRODUCER
  else if s = "CONSUMER" then some .CONSUMER
  else none

/-- `spanKindMapByNumber` of `src/domain/utils.ts`. -/
def spanKindMapByNumber (q : ℚ) : Option SpanKind :=
  if q = 0 then some .UNSPECIFIED
  else if q = 1 then some .INTERNAL
  else if q = 2 then some .SERVER
  else if q = 3 then some .CLIENT
  else if q = 4 then some .PRODUCER
  else if q = 5 then some .CONSUMER
  else none

/-- `statusCodeMapByString` of `src/domain/utils.ts`. -/
def statusCodeMapByString (s : String) : Option StatusCode :=
  if s = "UNSET" then some .UNSET
  else if s = "OK" then some .OK
  else if s = "ERROR" then some .ERROR
  else none

/-- `statusCodeMapByNumber` of `src/domain/utils.ts`. -/
def statusCodeMapByNumber (q : ℚ) : Option StatusCode :=
  if q = 0 then some .UNSET
  else if q = 1 then some .OK
  else if q = 2 then some .ERROR
  else none

/-- `toSpanKind` of `src/domain/utils.ts`: the argument is first checked for
JS truthiness (`if (spanKindAsStrOrNumber)`), so the number 0 and the empty
string are treated like an absent argument and yield `undefined`. -/
def toSpanKind (x : Option StrOrNum) : Option SpanKind :=
  match x with
  | none => none
  | some (.num q) => if q = 0 then none else spanKindMapByNumber q
  | some (.str s) => if s = "" then none else spanKindMapByString (jsToUpper s)

/-- `toStatusCode` of `src/domain/utils.ts`, with the same truthiness guard. -/
def toStatusCode (x : Option StrOrNum) : Option StatusCode :=
  match x with
  | none => none
  | some (.num q) => if q = 0 then none else statusCodeMapByNumber q
  | some (.str s) => if s = "" then none else statusCodeMapByString (jsToUpper s)

/-- The fixed numeric wire form of each span kind (the spec's table
0=unspecified .. 5=consumer; inverse of `spanKindMapByNumber`). -/
def spanKindNumber : SpanKind → ℚ
  | .UNSPECIFIED => 0
  | .INTERNAL => 1
  | .SERVER => 2
  | .CLIENT => 3
  | .PRODUCER => 4
  | .CONSUMER => 5

/-- The fixed numeric wire form of each status code (0=unset, 1=ok, 2=error). -/
def statusCodeNumber : StatusCode → ℚ
  | .UNSET => 0
  | .OK => 1
  | .ERROR => 2

/-! ## client/types.ts -/

/-- `DEFAULT_REQUEST_TIMEOUT_MS` of `src/client/types.ts`. -/
def DEFAULT_REQUEST_TIMEOUT_MS : Nat := 60000

/-- `MAX_REQUEST_TIMEOUT_MS` of `src/client/types.ts`. -/
def MAX_REQUEST_TIMEOUT_MS : Nat := 300000

/-- JS `Math.round(timeoutMs / 1000)` for a non-negative integer input:
round half up, i.e. floor((ms + 500) / 1000). -/
def roundMsToSeconds (timeoutMs : Nat) : Nat := (timeoutMs + 500) / 1000

/-- `formatRequestTimedOutMessage` of `src/client/types.ts`. -/
def formatRequestTimedOutMessage (timeoutMs : Nat) : String :=
  "Request timed out after " ++ toString (roundMsToSeconds timeoutMs) ++ "s"

/-! ## client/url-utils.ts -/

structure UrlPort where
  url : String
  port : Nat
  deriving DecidableEq, Repr

/-- Decimal value of a digit string (JS `parseInt(match[2], 10)` on an
all-digit string). -/
def natOfDigits (ds : List Char) : Nat :=
  ds.foldl (fun a c => a * 10 + (c.toNat - 48)) 0

/-- The regex match `normalized.match(/^(.+):(\d+)$/)` of
`src/client/url-utils.ts`: succeeds iff the string ends with a colon
followed by one or more digits and at least one character stands before
that colon; the greedy `(.+)` makes the digit group the maximal trailing
digit run. Returns (group 1, group 2). -/
def matchPortSuffix (s : String) : Option (String × List Char) :=
  let r := s.toList.reverse
  let ds := r.takeWhile Char.isDigit
  if ds.isEmpty then none
  else
    match r.drop ds.length with
    | ':' :: pre => if pre.isEmpty then none else some (String.mk pre.reverse, ds.reverse)
    | _ => none

/-- Whether a character list contains `pat` as a contiguous sublist
(JS `String.prototype.includes`). -/
def listContains (pat : List Char) : List Char → Bool
  | [] => pat.isEmpty
  | l@(_ :: rest) => pat.isPrefixOf l || listContains pat rest

/-- Whether the string contains the scheme separator `://`
(`url.indexOf('://') >= 0`). -/
def hasSchemaSeparator (s : String) : Bool :=
  listContains "://".toList s.toList

/-- JS `String.prototype.startsWith`, on the underlying character list. -/
def strStartsWith (s pre : String) : Bool :=
  pre.toList.isPrefixOf s.toList

/-- `parseUrlAndPort` of `src/client/url-utils.ts` (also
`JaegerHttpClient._parseUrlAndPort`): adds an http(s) scheme when missing
(https iff `configPort == 443`), strips a trailing `:<digits>` port from the
URL and uses it, else falls back to `configPort`, else to 443 for https and
to the REST default 16686. -/
def parseUrlAndPort (url : String) (configPort : Option Nat) : UrlPort :=
  let normalized :=
    if hasSchemaSeparator url then url
    else (if configPort = some 443 then "https://" else "http://") ++ url
  match matchPortSuffix normalized with
  | some (pre, ds) => { url := pre, port := natOfDigits ds }
  | none =>
      { url := normalized
        port := configPort.getD (if strStartsWith normalized "https://" then 443 else 16686) }

/-- `JaegerGrpcClient._isSecureUrl` of `src/client/jaeger-grpc-client.ts`. -/
def isSecureUrl (url : String) (port : Nat) : Bool :=
  if strStartsWith url "https://" then true
  else if strStartsWith url "http://" then false
  else if port = 443 then true
  else false

/-! ## Request building: timestamps and durations -/

/-- `google.protobuf.ITimestamp` / `IDuration`: a `{seconds, nanos}` pair. -/
structure SecondsNanos where
  seconds : Nat
  nanos : Nat
  deriving DecidableEq, Repr

namespace JaegerGrpcClient

/-- `JaegerGrpcClient._toTimestamp`: the JS truthiness guard `if (timestamp)`
makes both an absent and a zero epoch-ms input yield `undefined`; otherwise
`{seconds: floor(ms/1000), nanos: (ms % 1000) * 1e6}`. -/
def toTimestamp (timestamp : Option Nat) : Option SecondsNanos :=
  match timestamp with
  | none => none
  | some ms =>
      if ms = 0 then none
      else some { seconds := ms / 1000, nanos := (ms % 1000) * 1000000 }

/-- `JaegerGrpcClient._toDuration`: identical shape to `_toTimestamp`. -/
def toDuration (duration : Option Nat) : Option SecondsNanos :=
  match duration with
  | none => none
  | some ms =>
      if ms = 0 then none
      else some { seconds := ms / 1000, nanos := (ms % 1000) * 1000000 }

end JaegerGrpcClient

/-- Decoding a `{seconds, nanos}` pair back to epoch milliseconds:
`seconds * 1000 + nanos / 1e6` (integer division truncates the
sub-millisecond part). -/
def secondsNanosToMs (p : SecondsNanos) : Nat :=
  p.seconds * 1000 + p.nanos / 1000000

/-! ## HTTP query formatting: ISO timestamps and duration units -/

/-- Left-pads the decimal representation of `n` with zeros to `w` digits. -/
def padNum (w n : Nat) : String :=
  let s := toString n
  String.mk (List.replicate (w - s.length) '0') ++ s

/-- Civil date from days since 1970-01-01 (proleptic Gregorian), for
non-negative day counts: returns (year, month, day). -/
def civilFromDays (days : Nat) : Nat × Nat × Nat :=
  let z := days + 719468
  let era := z / 146097
  let doe := z % 146097
  let yoe := (doe - doe / 1460 + doe / 36524 - doe / 146097) / 365
  let doy := doe - (365 * yoe + yoe / 4 - yoe / 100)
  let mp := (5 * doy + 2) / 153
  let d := doy - (153 * mp + 2) / 5 + 1
  let m := if mp < 10 then mp + 3 else mp - 9
  let y := yoe + era * 400 + (if m ≤ 2 then 1 else 0)
  (y, m, d)

/-- JS `new Date(ms).toISOString()` for a non-negative epoch-ms value:
`yyyy-mm-ddThh:mm:ss.mmmZ`. -/
def toIsoString (ms : Nat) : String :=
  let days := ms / 86400000
  let rem := ms % 86400000
  let (y, mo, d) := civilFromDays days
  padNum 4 y ++ "-" ++ padNum 2 mo ++ "-" ++ padNum 2 d ++ "T" ++
    padNum 2 (rem / 3600000) ++ ":" ++ padNum 2 (rem % 3600000 / 60000) ++ ":" ++
    padNum 2 (rem % 60000 / 1000) ++ "." ++ padNum 3 (rem % 1000) ++ "Z"

namespace JaegerHttpClient

/-- `JaegerHttpClient._toDateTimeString`: `if (timestamp)` means an absent or
zero epoch-ms input yields `undefined`, else the ISO-8601 string. -/
def toDateTimeString (timestamp : Option Nat) : Option String :=
  match timestamp with
  | none => none
  | some ms => if ms = 0 then none else some (toIsoString ms)

/-- `JaegerHttpClient._toDurationUnit`: `if (durationMs)` means an absent or
zero input yields `undefined`, else the string `"<ms>ms"`. -/
def toDurationUnit (durationMs : Option Nat) : Option String :=
  match durationMs with
  | none => none
  | some ms => if ms = 0 then none else some (toString ms ++ "ms")

end JaegerHttpClient

/-! ## Canonical domain model (src/domain) -/

/-- A JS `number | Long` as delivered by protobufjs: a plain number
(modelled as a rational) or a `Long` instance (modelled as an integer). -/
inductive NumOrLong where
  | num (q : ℚ)
  | long (n : Int)
  deriving DecidableEq, Repr

/-- Canonical `Attribute.value`: per the spec at most one of the four fields
is populated. -/
structure AttrValue where
  stringValue : Option String := none
  boolValue : Option Bool := none
  intValue : Option ℚ := none
  doubleValue : Option ℚ := none
  deriving DecidableEq, Repr

structure Attribute where
  key : String
  value : AttrValue
  deriving DecidableEq, Repr

/-- Number of populated fields of an `AttrValue`. -/
def countPopulated (v : AttrValue) : Nat :=
  (if v.stringValue.isSome then 1 else 0) + (if v.boolValue.isSome then 1 else 0) +
    (if v.intValue.isSome then 1 else 0) + (if v.doubleValue.isSome then 1 else 0)

structure Resource where
  attributes : Option (List Attribute) := none
  droppedAttributesCount : Option Nat := none
  deriving DecidableEq, Repr

structure InstrumentationScope where
  name : Option String := none
  version : Option String := none
  attributes : Option (List Attribute) := none
  droppedAttributesCount : Option Nat := none
  deriving DecidableEq, Repr

structure Event where
  name : Option String := none
  timeUnixNano : Option String := none
  attributes : Option (List Attribute) := none
  droppedAttributesCount : Option Nat := none
  deriving DecidableEq, Repr

structure Link where
  traceId : String
  spanId : String
  traceState : Option String := none
  attributes : Option (List Attribute) := none
  droppedAttributesCount : Option Nat := none
  deriving DecidableEq, Repr

structure Status where
  code : Option StatusCode := none
  message : Option String := none
  deriving DecidableEq, Repr

structure Span where
  traceId : String
  spanId : String
  traceState : Option String := none
  parentSpanId : String
  name : Option String := none
  kind : Option SpanKind := none
  startTimeUnixNano : Option String := none
  endTimeUnixNano : Option String := none
  attributes : Option (List Attribute) := none
  droppedAttributesCount : Option Nat := none
  events : Option (List Event) := none
  droppedEventsCount : Option Nat := none
  links : Option (List Link) := none
  droppedLinksCount : Option Nat := none
  status : Option Status := none
  deriving DecidableEq, Repr

structure ScopeSpans where
  scope : InstrumentationScope
  spans : List Span
  schemaUrl : Option String := none
  deriving DecidableEq, Repr

structure ResourceSpans where
  resource : Resource
  scopeSpans : List ScopeSpans
  schemaUrl : Option String := none
  deriving DecidableEq, Repr

structure Operation where
  name : Option String := none
  spanKind : Option SpanKind := none
  deriving DecidableEq, Repr

structure GetServicesResponse where
  services : Option (List String) := none
  deriving DecidableEq, Repr

structure GetOperationsResponse where
  operations : Option (List Operation) := none
  deriving DecidableEq, Repr

structure GetTraceResponse where
  resourceSpans : Option (List ResourceSpans) := none
  deriving DecidableEq, Repr

structure FindTracesResponse where
  resourceSpans : Option (List ResourceSpans) := none
  deriving DecidableEq, Repr

/-! ## gRPC wire model (generated protobuf interface types) -/

/-- `opentelemetry.proto.common.v1.IAnyValue` (the fields the client reads). -/
structure IAnyValue where
  stringValue : Option String := none
  boolValue : Option Bool := none
  intValue : Option NumOrLong := none
  doubleValue : Option NumOrLong := none
  deriving DecidableEq, Repr

structure IKeyValue where
  key : String
  value : Option IAnyValue := none
  deriving DecidableEq, Repr

structure IResource where
  attributes : Option (List IKeyValue) := none
  droppedAttributesCount : Option Nat := none
  deriving DecidableEq, Repr

structure IInstrumentationScope where
  name : Option String := none
  version : Option String := none
  attributes : Option (List IKeyValue) := none
  droppedAttributesCount : Option Nat := none
  deriving DecidableEq, Repr

/-- An event of `opentelemetry.proto.trace.v1.ISpan`; `timeUnixNano` is a
protobufjs `Long`, modelled as an integer. -/
structure IEvent where
  name : Option String := none
  timeUnixNano : Option Int := none
  attributes : Option (List IKeyValue) := none
  droppedAttributesCount : Option Nat := none
  deriving DecidableEq, Repr

/-- Binary ids are byte arrays (each entry < 256). -/
structure ILink where
  traceId : Option (List Nat) := none
  spanId : Option (List Nat) := none
  traceState : Option String := none
  attributes : Option (List IKeyValue) := none
  droppedAttributesCount : Option Nat := none
  deriving DecidableEq, Repr

structure IStatus where
  code : Option ℚ := none
  message : Option String := none
  deriving DecidableEq, Repr

structure ISpan where
  traceId : Option (List Nat) := none
  spanId : Option (List Nat) := none
  traceState : Option String := none
  parentSpanId : Option (List Nat) := none
  name : Option String := none
  kind : Option ℚ := none
  startTimeUnixNano : Option Int := none
  endTimeUnixNano : Option Int := none
  attributes : Option (List IKeyValue) := none
  droppedAttributesCount : Option Nat := none
  events : Option (List IEvent) := none
  droppedEventsCount : Option Nat := none
  links : Option (List ILink) := none
  droppedLinksCount : Option Nat := none
  status : Option IStatus := none
  deriving DecidableEq, Repr

structure IScopeSpans where
  scope : IInstrumentationScope
  spans : List ISpan
  schemaUrl : Option String := none
  deriving DecidableEq, Repr

structure IResourceSpans where
  resource : IResource
  scopeSpans : List IScopeSpans
  schemaUrl : Option String := none
  deriving DecidableEq, Repr

structure IOperation where
  name : Option String := none
  spanKind : Option String := none
  deriving DecidableEq, Repr

structure IGetServicesResponse where
  services : Option (List String) := none
  deriving DecidableEq, Repr

structure IGetOperationsResponse where
  operations : Option (List IOperation) := none
  deriving DecidableEq, Repr

/-- `opentelemetry.proto.trace.v1.TracesData` (stream chunk and merged
result of the server-streaming RPCs). -/
structure TracesData where
  resourceSpans : Option (List IResourceSpans) := none
  deriving DecidableEq, Repr

/-! ## JS truthiness helpers for the `x || undefined` idiom -/

/-- `x || undefined` on an optional JS number: 0 is falsy. -/
def truthyNat : Option Nat → Option Nat
  | some 0 => none
  | x => x

/-- `x || undefined` on an optional JS string: the empty string is falsy. -/
def truthyStr : Option String → Option String
  | none => none
  | some s => if s = "" then none else some s

/-- `x || undefined` on an optional JS boolean: `false` is falsy. -/
def truthyBool : Option Bool → Option Bool
  | some false => none
  | x => x

/-- `xs && xs.length ? f(xs) : undefined`: absent and empty lists give
`undefined`. -/
def nonemptyMap (f : α → β) : Option (List α) → Option (List β)
  | none => none
  | some l => if l.isEmpty then none else some (l.map f)

/-! ## gRPC response decoding (JaegerGrpcClient._to*) -/

/-- Lowercase hexadecimal digit for a value < 16. -/
def hexDigitChar (n : Nat) : Char :=
  if n < 10 then Char.ofNat (48 + n) else Char.ofNat (87 + n)

/-- The two lowercase hex characters of one byte
(`Buffer.toString('hex')` encodes each byte this way). -/
def byteHexChars (b : Nat) : List Char :=
  [hexDigitChar (b / 16), hexDigitChar (b % 16)]

/-- Value of a lowercase hex character, `none` for anything else. -/
def hexCharVal (c : Char) : Option Nat :=
  if '0' ≤ c && c ≤ '9' then some (c.toNat - 48)
  else if 'a' ≤ c && c ≤ 'f' then some (c.toNat - 87)
  else none

/-- Decodes a list of hex characters back into bytes, two characters per
byte; fails on odd length or non-hex characters. -/
def hexDecode : List Char → Option (List Nat)
  | [] => some []
  | [_] => none
  | c1 :: c2 :: rest =>
      match hexCharVal c1, hexCharVal c2, hexDecode rest with
      | some hi, some lo, some bs => some ((16 * hi + lo) :: bs)
      | _, _, _ => none

/-- Whether a character is a lowercase hexadecimal digit. -/
def isLowerHexChar (c : Char) : Bool :=
  ('0' ≤ c && c ≤ '9') || ('a' ≤ c && c ≤ 'f')

namespace JaegerGrpcClient

/-- `JaegerGrpcClient._toIdString`: the lowercase hex string of the binary
id's bytes when present and non-empty, the empty string otherwise (the TS
return type admits `null` but the implementation never produces it). -/
def toIdString (idBytes : Option (List Nat)) : String :=
  match idBytes with
  | none => ""
  | some l => if l.length ≠ 0 then String.mk (l.flatMap byteHexChars) else ""

/-- `JaegerGrpcClient._toNumber`: plain numbers (including 0) pass through,
`Long` instances are converted via `Long.toNumber()` (always truthy objects,
including `Long(0)`), and `null`/`undefined` yield `undefined`. -/
def toNumber (x : Option NumOrLong) : Option ℚ :=
  match x with
  | some (.num q) => some q
  | some (.long n) => some (n : ℚ)
  | none => none

/-- `JaegerGrpcClient._toTimeUnixNanoString`: decimal string of the `Long`
nanosecond value; absent input yields `undefined` (a `Long` object is
truthy, so even a zero `Long` is printed). -/
def toTimeUnixNanoString (t : Option Int) : Option String :=
  t.map (fun n => toString n)

/-- `JaegerGrpcClient._toAttribute`: `stringValue`/`boolValue` go through the
`|| undefined` truthiness filter, numeric values through `_toNumber`. -/
def toAttribute (kv : IKeyValue) : Attribute :=
  { key := kv.key
    value :=
      { stringValue := truthyStr (kv.value.bind (·.stringValue))
        boolValue := truthyBool (kv.value.bind (·.boolValue))
        intValue := toNumber (kv.value.bind (·.intValue))
        doubleValue := toNumber (kv.value.bind (·.doubleValue)) } }

/-- `JaegerGrpcClient._toResource`. -/
def toResource (r : IResource) : Resource :=
  { attributes := nonemptyMap toAttribute r.attributes
    droppedAttributesCount := truthyNat r.droppedAttributesCount }

/-- `JaegerGrpcClient._toInstrumentationScope`. -/
def toInstrumentationScope (is : IInstrumentationScope) : InstrumentationScope :=
  { name := is.name
    version := truthyStr is.version
    attributes := nonemptyMap toAttribute is.attributes
    droppedAttributesCount := truthyNat is.droppedAttributesCount }

/-- `JaegerGrpcClient._toEvent`. -/
def toEvent (e : IEvent) : Event :=
  { name := e.name
    timeUnixNano := toTimeUnixNanoString e.timeUnixNano
    attributes := nonemptyMap toAttribute e.attributes
    droppedAttributesCount := truthyNat e.droppedAttributesCount }

/-- `JaegerGrpcClient._toLink`. -/
def toLink (l : ILink) : Link :=
  { traceId := toIdString l.traceId
    spanId := toIdString l.spanId
    traceState := truthyStr l.traceState
    attributes := nonemptyMap toAttribute l.attributes
    droppedAttributesCount := truthyNat l.droppedAttributesCount }

/-- `JaegerGrpcClient._toStatus`: absent status stays absent; the code goes
through `toStatusCode(s.code?.valueOf())`. -/
def toStatus (s : Option IStatus) : Option Status :=
  s.map fun st =>
    { code := toStatusCode (st.code.map .num)
      message := truthyStr st.message }

/-- `JaegerGrpcClient._toSpan`. -/
def toSpan (s : ISpan) : Span :=
  { traceId := toIdString s.traceId
    spanId := toIdString s.spanId
    traceState := truthyStr s.traceState
    parentSpanId := toIdString s.parentSpanId
    name := s.name
    kind := toSpanKind (s.kind.map .num)
    startTimeUnixNano := toTimeUnixNanoString s.startTimeUnixNano
    endTimeUnixNano := toTimeUnixNanoString s.endTimeUnixNano
    attributes := nonemptyMap toAttribute s.attributes
    droppedAttributesCount := truthyNat s.droppedAttributesCount
    events := nonemptyMap toEvent s.events
    droppedEventsCount := truthyNat s.droppedEventsCount
    links := nonemptyMap toLink s.links
    droppedLinksCount := truthyNat s.droppedLinksCount
    status := toStatus s.status }

/-- `JaegerGrpcClient._toScopeSpans`. -/
def toScopeSpans (ss : IScopeSpans) : ScopeSpans :=
  { scope := toInstrumentationScope ss.scope
    spans := ss.spans.map toSpan
    schemaUrl := truthyStr ss.schemaUrl }

/-- `JaegerGrpcClient._toResourceSpans`. -/
def toResourceSpans (rs : IResourceSpans) : ResourceSpans :=
  { resource := toResource rs.resource
    scopeSpans := rs.scopeSpans.map toScopeSpans
    schemaUrl := truthyStr rs.schemaUrl }

/-- `JaegerGrpcClient._toOperation`. -/
def toOperation (op : IOperation) : Operation :=
  { name := op.name
    spanKind := toSpanKind (op.spanKind.map .str) }

end JaegerGrpcClient

/-! ## Errors and error handling -/

/-- A gRPC call error as seen by `JaegerGrpcClient._handleError`: the status
code (absent on a plain `Error`) and the message. -/
structure GrpcErr where
  code : Option Int := none
  message : String := ""
  deriving DecidableEq, Repr

/-- `grpc.status.DEADLINE_EXCEEDED`. -/
def GRPC_DEADLINE_EXCEEDED : Int := 4

/-- `grpc.status.UNIMPLEMENTED`. -/
def GRPC_UNIMPLEMENTED : Int := 12

/-- An HTTP/axios call error as seen by `JaegerHttpClient._handleError`:
`status`, `response?.status`, the `code` string (e.g. `ECONNABORTED`) and
the message. -/
structure HttpErr where
  status : Option Nat := none
  responseStatus : Option Nat := none
  code : Option String := none
  message : String := ""
  deriving DecidableEq, Repr

/-- `HTTP_STATUS_CODE_NOT_FOUND`. -/
def HTTP_STATUS_CODE_NOT_FOUND : Nat := 404

/-- The JS empty object `{}` cast to a response type: every optional field
is absent. -/
class JsEmptyObj (R : Type) where
  emptyObj : R

instance : JsEmptyObj GetServicesResponse := ⟨{}⟩
instance : JsEmptyObj GetOperationsResponse := ⟨{}⟩
instance : JsEmptyObj GetTraceResponse := ⟨{}⟩
instance : JsEmptyObj FindTracesResponse := ⟨{}⟩

namespace JaegerGrpcClient

/-- `JaegerGrpcClient._handleError`: UNIMPLEMENTED yields the empty object
as a successful result; DEADLINE_EXCEEDED throws a fresh `Error` carrying
`formatRequestTimedOutMessage(requestTimeoutMs)`; everything else is
rethrown unchanged. -/
def handleError [JsEmptyObj R] (requestTimeoutMs : Nat) (err : GrpcErr) :
    Except GrpcErr R :=
  if err.code = some GRPC_UNIMPLEMENTED then .ok JsEmptyObj.emptyObj
  else if err.code = some GRPC_DEADLINE_EXCEEDED then
    .error { message := formatRequestTimedOutMessage requestTimeoutMs }
  else .error err

/-- `JaegerGrpcClient.getServices`: the backend outcome is either the
decoded unary response or a call error routed through `_handleError`. -/
def getServices (requestTimeoutMs : Nat)
    (backend : Except GrpcErr IGetServicesResponse) :
    Except GrpcErr GetServicesResponse :=
  match backend with
  | .ok r => .ok { services := r.services }
  | .error e => handleError requestTimeoutMs e

/-- `JaegerGrpcClient.getOperations`. -/
def getOperations (requestTimeoutMs : Nat)
    (backend : Except GrpcErr IGetOperationsResponse) :
    Except GrpcErr GetOperationsResponse :=
  match backend with
  | .ok r => .ok { operations := r.operations.map (·.map toOperation) }
  | .error e => handleError requestTimeoutMs e

/-- `JaegerGrpcClient.getTrace`: success decodes the aggregated
`TracesData` through `_toResourceSpans`. -/
def getTrace (requestTimeoutMs : Nat) (backend : Except GrpcErr TracesData) :
    Except GrpcErr GetTraceResponse :=
  match backend with
  | .ok r => .ok { resourceSpans := r.resourceSpans.map (·.map toResourceSpans) }
  | .error e => handleError requestTimeoutMs e

/-- `JaegerGrpcClient.findTraces`. -/
def findTraces (requestTimeoutMs : Nat) (backend : Except GrpcErr TracesData) :
    Except GrpcErr FindTracesResponse :=
  match backend with
  | .ok r => .ok { resourceSpans := r.resourceSpans.map (·.map toResourceSpans) }
  | .error e => handleError requestTimeoutMs e

/-! ### Streaming RPC implementation (`_createRpcImpl`, streaming branch) -/

/-- One event on the server stream of FindTraces/GetTrace. -/
inductive StreamEvent where
  | data (chunk : TracesData)
  | endOfStream
  | error (err : GrpcErr)
  deriving DecidableEq, Repr

/-- The merged `TracesData` built on end-of-stream:
`chunks.flatMap((c) => c.resourceSpans || [])`. -/
def mergeChunks (chunks : List TracesData) : TracesData :=
  { resourceSpans := some (chunks.flatMap fun c => c.resourceSpans.getD []) }

/-- The streaming branch of `JaegerGrpcClient._createRpcImpl` as a state
machine over the stream's event sequence: `data` events push the decoded
chunk, the first `end` event invokes the callback with the merged
`TracesData`, the first `error` event invokes it with the error, and the
callback result is `none` while neither terminal event has occurred. -/
def runStream : List StreamEvent → List TracesData →
    Option (Except GrpcErr TracesData)
  | [], _ => none
  | .data c :: rest, chunks => runStream rest (chunks ++ [c])
  | .endOfStream :: _, chunks => some (.ok (mergeChunks chunks))
  | .error e :: _, _ => some (.error e)

end JaegerGrpcClient

/-! ## HTTP JSON normalization (JaegerHttpClient._normalize*) -/

/-- An untyped JSON value as far as the normalizer inspects it
(`typeof x === 'string' | 'number'`, booleans, and the `NaN` result of a
failed `parseInt`/`parseFloat`). -/
inductive Jv where
  | str (s : String)
  | num (q : ℚ)
  | boolean (b : Bool)
  | nan
  deriving DecidableEq, Repr

/-- Maximal leading digit run and the rest, for the numeral parsers. -/
def digitsValue (l : List Char) : Option Nat :=
  let ds := l.takeWhile Char.isDigit
  if ds.isEmpty then none else some (natOfDigits ds)

/-- JS `parseInt(s)` restricted to plain decimal numerals (optional sign,
then a maximal leading digit run); `none` models `NaN`. -/
def jsParseInt (s : String) : Option Int :=
  match s.toList with
  | '-' :: rest => (digitsValue rest).map fun n => -(n : Int)
  | '+' :: rest => (digitsValue rest).map fun n => (n : Int)
  | l => (digitsValue l).map fun n => (n : Int)

/-- Fractional part value: digits after the decimal point as a rational. -/
def fracValue (l : List Char) : ℚ :=
  let ds := l.takeWhile Char.isDigit
  (natOfDigits ds : ℚ) / ((10 : ℚ) ^ ds.length)

/-- JS `parseFloat(s)` restricted to plain decimal numerals
(optional sign, digits, optional point and fraction digits);
`none` models `NaN`. -/
def jsParseFloat (s : String) : Option ℚ :=
  let core : List Char → Option ℚ := fun l =>
    let ds := l.takeWhile Char.isDigit
    match l.drop ds.length with
    | '.' :: rest =>
        if ds.isEmpty && (rest.takeWhile Char.isDigit).isEmpty then none
        else some ((natOfDigits ds : ℚ) + fracValue rest)
    | _ => if ds.isEmpty then none else some (natOfDigits ds : ℚ)
  match s.toList with
  | '-' :: rest => (core rest).map Neg.neg
  | '+' :: rest => core rest
  | l => core l

/-- `parseInt` result as a JSON value (`NaN` when parsing fails). -/
def jvParseInt (s : String) : Jv :=
  match jsParseInt s with
  | some n => .num (n : ℚ)
  | none => .nan

/-- `parseFloat` result as a JSON value. -/
def jvParseFloat (s : String) : Jv :=
  match jsParseFloat s with
  | some q => .num q
  | none => .nan

/-- The `value` object of a raw REST attribute. -/
structure HValue where
  stringValue : Option Jv := none
  boolValue : Option Jv := none
  intValue : Option Jv := none
  doubleValue : Option Jv := none
  deriving DecidableEq, Repr

structure HAttribute where
  key : Option Jv := none
  value : Option HValue := none
  deriving DecidableEq, Repr

structure HResource where
  attributes : Option (List HAttribute) := none
  deriving DecidableEq, Repr

structure HScope where
  attributes : Option (List HAttribute) := none
  deriving DecidableEq, Repr

structure HEvent where
  attributes : Option (List HAttribute) := none
  deriving DecidableEq, Repr

structure HLink where
  attributes : Option (List HAttribute) := none
  deriving DecidableEq, Repr

structure HSpan where
  kind : Option Jv := none
  attributes : Option (List HAttribute) := none
  events : Option (List HEvent) := none
  links : Option (List HLink) := none
  deriving DecidableEq, Repr

structure HScopeSpans where
  scope : Option HScope := none
  spans : Option (List HSpan) := none
  deriving DecidableEq, Repr

structure HResourceSpans where
  resource : Option HResource := none
  scopeSpans : Option (List HScopeSpans) := none
  deriving DecidableEq, Repr

namespace JaegerHttpClient

/-- `JaegerHttpClient._normalizeAttribute`: an `intValue` that arrives as a
JSON string is replaced by `parseInt` of it, a string `doubleValue` by
`parseFloat` of it; anything else is left untouched. -/
def normalizeAttribute (a : HAttribute) : HAttribute :=
  let a1 :=
    match a.value with
    | some v =>
        match v.intValue with
        | some (.str s) => { a with value := some { v with intValue := some (jvParseInt s) } }
        | _ => a
    | none => a
  match a1.value with
  | some v =>
      match v.doubleValue with
      | some (.str s) => { a1 with value := some { v with doubleValue := some (jvParseFloat s) } }
      | _ => a1
  | none => a1

/-- `JaegerHttpClient._normalizeResource`. -/
def normalizeResource (r : HResource) : HResource :=
  { attributes := r.attributes.map (·.map normalizeAttribute) }

/-- `JaegerHttpClient._normalizeInstrumentationScope`. -/
def normalizeInstrumentationScope (s : HScope) : HScope :=
  { attributes := s.attributes.map (·.map normalizeAttribute) }

/-- `JaegerHttpClient._normalizeEvent`. -/
def normalizeEvent (e : HEvent) : HEvent :=
  { attributes := e.attributes.map (·.map normalizeAttribute) }

/-- `JaegerHttpClient._normalizeLink`. -/
def normalizeLink (l : HLink) : HLink :=
  { attributes := l.attributes.map (·.map normalizeAttribute) }

/-- `JaegerHttpClient._normalizeSpan`: a numeric `kind` is decoded through
`toSpanKind(...)?.toString()` into the canonical enum string (or dropped
when the decode yields `undefined`); attributes, events and links are
normalized recursively. -/
def normalizeSpan (s : HSpan) : HSpan :=
  { kind :=
      match s.kind with
      | some (.num q) => (toSpanKind (some (.num q))).map fun k => Jv.str k.toStr
      | k => k
    attributes := s.attributes.map (·.map normalizeAttribute)
    events := s.events.map (·.map normalizeEvent)
    links := s.links.map (·.map normalizeLink) }

/-- `JaegerHttpClient._normalizeResourceSpans` (current revision: a missing
`resource`/`scope` is replaced by an empty object before normalizing). -/
def normalizeResourceSpans (l : List HResourceSpans) : List HResourceSpans :=
  l.map fun rs =>
    { resource := some (normalizeResource (rs.resource.getD {}))
      scopeSpans := rs.scopeSpans.map (·.map fun ss =>
        { scope := some (normalizeInstrumentationScope (ss.scope.getD {}))
          spans := ss.spans.map (·.map normalizeSpan) }) }

end JaegerHttpClient

/-! ## HTTP raw response shapes and operations -/

/-- Raw JSON of `/api/v3/services`. -/
structure HttpServicesRaw where
  services : Option (List String) := none
  deriving DecidableEq, Repr

/-- A raw operation object of `/api/v3/operations` (passed through
untouched). -/
structure HOperation where
  name : Option Jv := none
  spanKind : Option Jv := none
  deriving DecidableEq, Repr

structure HttpOperationsRaw where
  operations : Option (List HOperation) := none
  deriving DecidableEq, Repr

/-- The `result` object of `/api/v3/traces/{id}` (`result.resourceSpans` is
accessed without optional chaining by `getTrace`). -/
structure HttpTraceResult where
  resourceSpans : List HResourceSpans
  deriving DecidableEq, Repr

structure HttpTraceRaw where
  result : HttpTraceResult
  deriving DecidableEq, Repr

/-- The raw JSON of `/api/v3/traces` (`findTraces` reads
`result?.resourceSpans ?? []`). -/
structure HttpFindResult where
  resourceSpans : Option (List HResourceSpans) := none
  deriving DecidableEq, Repr

structure HttpFindRaw where
  result : Option HttpFindResult := none
  deriving DecidableEq, Repr

/-- HTTP `getOperations` response (raw operations passed through). -/
structure HttpOperationsResponse where
  operations : Option (List HOperation) := none
  deriving DecidableEq, Repr

/-- HTTP trace-fetch / trace-search response: normalized raw resource spans. -/
structure HttpTracesResponse where
  resourceSpans : Option (List HResourceSpans) := none
  deriving DecidableEq, Repr

instance : JsEmptyObj HttpServicesRaw := ⟨{}⟩
instance : JsEmptyObj HttpOperationsResponse := ⟨{}⟩
instance : JsEmptyObj HttpTracesResponse := ⟨{}⟩

namespace JaegerHttpClient

/-- The status `_handleError` inspects: `err.response?.status ?? err.status`.  -/
def errStatus (e : HttpErr) : Option Nat :=
  e.responseStatus.or e.status

/-- The timeout test of `_handleError`:
`err.code === 'ECONNABORTED' || err.message.toLowerCase().includes('timeout')`
(the message test is guarded by the message's truthiness). -/
def isTimeoutErr (e : HttpErr) : Bool :=
  e.code = some "ECONNABORTED" ||
    (e.message != "" && listContains "timeout".toList (jsToLower e.message).toList)

/-- `JaegerHttpClient._handleError`: HTTP 404 yields the empty object as a
successful result; an axios timeout throws a fresh `Error` carrying
`formatRequestTimedOutMessage(requestTimeoutMs)`; everything else is
rethrown unchanged. -/
def handleError [JsEmptyObj R] (requestTimeoutMs : Nat) (err : HttpErr) :
    Except HttpErr R :=
  if errStatus err = some HTTP_STATUS_CODE_NOT_FOUND then .ok JsEmptyObj.emptyObj
  else if isTimeoutErr err then
    .error { message := formatRequestTimedOutMessage requestTimeoutMs }
  else .error err

/-- `JaegerHttpClient.getServices`. -/
def getServices (requestTimeoutMs : Nat)
    (backend : Except HttpErr HttpServicesRaw) :
    Except HttpErr HttpServicesRaw :=
  match backend with
  | .ok r => .ok { services := r.services }
  | .error e => handleError requestTimeoutMs e

/-- `JaegerHttpClient.getOperations`. -/
def getOperations (requestTimeoutMs : Nat)
    (backend : Except HttpErr HttpOperationsRaw) :
    Except HttpErr HttpOperationsResponse :=
  match backend with
  | .ok r => .ok { operations := r.operations }
  | .error e => handleError requestTimeoutMs e

/-- `JaegerHttpClient.getTrace`. -/
def getTrace (requestTimeoutMs : Nat)
    (backend : Except HttpErr HttpTraceRaw) :
    Except HttpErr HttpTracesResponse :=
  match backend with
  | .ok r => .ok { resourceSpans := some (normalizeResourceSpans r.result.resourceSpans) }
  | .error e => handleError requestTimeoutMs e

/-- `JaegerHttpClient.findTraces`. -/
def findTraces (requestTimeoutMs : Nat)
    (backend : Except HttpErr HttpFindRaw) :
    Except HttpErr HttpTracesResponse :=
  match backend with
  | .ok r =>
      .ok { resourceSpans :=
              some (normalizeResourceSpans ((r.result.bind (·.resourceSpans)).getD [])) }
  | .error e => handleError requestTimeoutMs e

end JaegerHttpClient

/-! ## Helper lemmas -/

lemma takeWhile_all_append (p : α → Bool) (l1 l2 : List α)
    (h : ∀ a ∈ l1, p a = true) :
    (l1 ++ l2).takeWhile p = l1 ++ l2.takeWhile p := by
  induction l1 with
  | nil => simp
  | cons a t ih =>
      simp [List.takeWhile_cons, h a (by simp),
        ih (fun x hx => h x (by simp [hx]))]

/-- The port-suffix regex on a string of the shape `X ++ ":" ++ ds` with `ds`
a non-empty digit run and `X` non-empty: group 1 is `X`, group 2 is `ds`. -/
lemma matchPortSuffix_strip (X : String) (ds : List Char) (hX : X.data ≠ [])
    (hne : ds ≠ []) (hd : ∀ c ∈ ds, c.isDigit = true) :
    matchPortSuffix (X ++ ":" ++ String.mk ds) = some (X, ds) := by
  have hdata : (X ++ ":" ++ String.mk ds).toList = X.data ++ ':' :: ds := by
    simp [String.toList, String.data_append]
  have hrev : (X.data ++ ':' :: ds).reverse = ds.reverse ++ ':' :: X.data.reverse := by
    simp
  have htw : (ds.reverse ++ ':' :: X.data.reverse).takeWhile Char.isDigit = ds.reverse := by
    rw [takeWhile_all_append _ _ _ (fun a ha => hd a (List.mem_reverse.mp ha))]
    simp [List.takeWhile_cons]
  have hdrop : (ds.reverse ++ ':' :: X.data.reverse).drop ds.reverse.length =
      ':' :: X.data.reverse := List.drop_left _ _
  have h1 : ds.reverse.isEmpty = false := by
    cases ds with
    | nil => exact absurd rfl hne
    | cons a t => simp
  have h2 : X.data.reverse.isEmpty = false := by
    cases hdt : X.data with
    | nil => exact absurd hdt hX
    | cons a t => simp [hdt]
  unfold matchPortSuffix
  rw [hdata]
  simp [hrev, htw, hdrop, h1, h2]

lemma runStream_past_data (cs : List TracesData)
    (rest : List JaegerGrpcClient.StreamEvent) (acc : List TracesData) :
    JaegerGrpcClient.runStream (cs.map .data ++ rest) acc =
      JaegerGrpcClient.runStream rest (acc ++ cs) := by
  induction cs generalizing acc with
  | nil => simp
  | cons c t ih => simp [JaegerGrpcClient.runStream, ih]

lemma hexDigitChar_val (d : Nat) (h : d < 16) :
    hexCharVal (hexDigitChar d) = some d ∧ isLowerHexChar (hexDigitChar d) = true := by
  interval_cases d <;> exact ⟨by decide, by decide⟩

lemma idHex_length (l : List Nat) :
    (l.flatMap byteHexChars).length = 2 * l.length := by
  induction l with
  | nil => simp
  | cons b t ih => simp [byteHexChars, ih]; omega

lemma idHex_lower (l : List Nat) (hb : ∀ b ∈ l, b < 256) :
    ∀ c ∈ l.flatMap byteHexChars, isLowerHexChar c = true := by
  induction l with
  | nil => simp
  | cons b t ih =>
      have hball : b < 256 := hb b (by simp)
      have hb1 : b / 16 < 16 := by omega
      have hb2 : b % 16 < 16 := by omega
      intro c hc
      simp only [List.flatMap_cons, List.mem_append, byteHexChars] at hc
      rcases hc with hc | hc
      · simp only [List.mem_cons, List.mem_singleton] at hc
        rcases hc with hc | hc | hc
        · subst hc; exact (hexDigitChar_val _ hb1).2
        · subst hc; exact (hexDigitChar_val _ hb2).2
        · cases hc
      · exact ih (fun x hx => hb x (by simp [hx])) c hc

lemma idHex_decode (l : List Nat) (hb : ∀ b ∈ l, b < 256) :
    hexDecode (l.flatMap byteHexChars) = some l := by
  induction l with
  | nil => simp [hexDecode]
  | cons b t ih =>
      have hball : b < 256 := hb b (by simp)
      have hb1 : b / 16 < 16 := by omega
      have hb2 : b % 16 < 16 := by omega
      have hrest := ih (fun x hx => hb x (by simp [hx]))
      have hcons : (b :: t).flatMap byteHexChars =
          hexDigitChar (b / 16) :: hexDigitChar (b % 16) :: t.flatMap byteHexChars := by
        simp [byteHexChars]
      rw [hcons]
      simp only [hexDecode, (hexDigitChar_val _ hb1).1, (hexDigitChar_val _ hb2).1, hrest]
      have hbv : 16 * (b / 16) + b % 16 = b := by omega
      rw [hbv]

/-! ## Claim theorems -/

/-- Claim C1: for every operation on either transport, a backend
`unimplemented` RPC status (streaming) or an HTTP 404 response (REST) yields
an empty successful result — a response object with all optional fields
absent — and never a thrown error. -/
theorem C1_unimplemented_and_404_are_empty_success
    (tm : Nat) (eg : GrpcErr) (eh : HttpErr)
    (hg : eg.code = some GRPC_UNIMPLEMENTED)
    (hh : JaegerHttpClient.errStatus eh = some HTTP_STATUS_CODE_NOT_FOUND) :
    JaegerGrpcClient.getServices tm (.error eg) = .ok { services := none } ∧
    JaegerGrpcClient.getOperations tm (.error eg) = .ok { operations := none } ∧
    JaegerGrpcClient.getTrace tm (.error eg) = .ok { resourceSpans := none } ∧
    JaegerGrpcClient.findTraces tm (.error eg) = .ok { resourceSpans := none } ∧
    JaegerHttpClient.getServices tm (.error eh) = .ok { services := none } ∧
    JaegerHttpClient.getOperations tm (.error eh) = .ok { operations := none } ∧
    JaegerHttpClient.getTrace tm (.error eh) = .ok { resourceSpans := none } ∧
    JaegerHttpClient.findTraces tm (.error eh) = .ok { resourceSpans := none } := by
  refine ⟨?_, ?_, ?_, ?_, ?_, ?_, ?_, ?_⟩ <;>
    simp [JaegerGrpcClient.getServices, JaegerGrpcClient.getOperations,
      JaegerGrpcClient.getTrace, JaegerGrpcClient.findTraces,
      JaegerHttpClient.getServices, JaegerHttpClient.getOperations,
      JaegerHttpClient.getTrace, JaegerHttpClient.findTraces,
      JaegerGrpcClient.handleError, JaegerHttpClient.handleError,
      hg, hh, GRPC_UNIMPLEMENTED, HTTP_STATUS_CODE_NOT_FOUND,
      JsEmptyObj.emptyObj]

/-- Witness for C1 at a concrete unimplemented/404 error and a concrete
timeout configuration. -/
theorem C1_unimplemented_and_404_are_empty_success_witness :
    (({ code := some GRPC_UNIMPLEMENTED } : GrpcErr).code = some GRPC_UNIMPLEMENTED) ∧
    (JaegerHttpClient.errStatus { responseStatus := some 404 } =
      some HTTP_STATUS_CODE_NOT_FOUND) ∧
    JaegerGrpcClient.getServices 60000 (.error { code := some GRPC_UNIMPLEMENTED }) =
      .ok { services := none } ∧
    JaegerHttpClient.getTrace 60000 (.error { responseStatus := some 404 }) =
      .ok { resourceSpans := none } :=
  ⟨rfl, rfl,
    (C1_unimplemented_and_404_are_empty_success 60000
        { code := some GRPC_UNIMPLEMENTED } { responseStatus := some 404 }
        rfl rfl).1,
    (C1_unimplemented_and_404_are_empty_success 60000
        { code := some GRPC_UNIMPLEMENTED } { responseStatus := some 404 }
        rfl rfl).2.2.2.2.2.2.1⟩

/-- Claim C2: for every `requestTimeoutMs` value and every operation, on
both transports, a call the backend does not answer within the window
(surfacing as DEADLINE_EXCEEDED on gRPC and as an axios ECONNABORTED error
on REST) fails with exactly the message
"Request timed out after Ns" where N = round(requestTimeoutMs / 1000). -/
theorem C2_timeout_message (tm : Nat) (eg : GrpcErr) (eh : HttpErr)
    (hg : eg.code = some GRPC_DEADLINE_EXCEEDED)
    (hcode : eh.code = some "ECONNABORTED")
    (hh : JaegerHttpClient.errStatus eh ≠ some HTTP_STATUS_CODE_NOT_FOUND) :
    formatRequestTimedOutMessage tm =
      "Request timed out after " ++ toString ((tm + 500) / 1000) ++ "s" ∧
    JaegerGrpcClient.getServices tm (.error eg) =
      .error { code := none, message := formatRequestTimedOutMessage tm } ∧
    JaegerGrpcClient.getOperations tm (.error eg) =
      .error { code := none, message := formatRequestTimedOutMessage tm } ∧
    JaegerGrpcClient.getTrace tm (.error eg) =
      .error { code := none, message := formatRequestTimedOutMessage tm } ∧
    JaegerGrpcClient.findTraces tm (.error eg) =
      .error { code := none, message := formatRequestTimedOutMessage tm } ∧
    JaegerHttpClient.getServices tm (.error eh) =
      .error { status := none, responseStatus := none, code := none,
               message := formatRequestTimedOutMessage tm } ∧
    JaegerHttpClient.getOperations tm (.error eh) =
      .error { status := none, responseStatus := none, code := none,
               message := formatRequestTimedOutMessage tm } ∧
    JaegerHttpClient.getTrace tm (.error eh) =
      .error { status := none, responseStatus := none, code := none,
               message := formatRequestTimedOutMessage tm } ∧
    JaegerHttpClient.findTraces tm (.error eh) =
      .error { status := none, responseStatus := none, code := none,
               message := formatRequestTimedOutMessage tm } := by
  have hh2 : ¬ JaegerHttpClient.errStatus eh = some 404 := by
    simpa [HTTP_STATUS_CODE_NOT_FOUND] using hh
  refine ⟨rfl, ?_, ?_, ?_, ?_, ?_, ?_, ?_, ?_⟩ <;>
    simp [JaegerGrpcClient.getServices, JaegerGrpcClient.getOperations,
      JaegerGrpcClient.getTrace, JaegerGrpcClient.findTraces,
      JaegerHttpClient.getServices, JaegerHttpClient.getOperations,
      JaegerHttpClient.getTrace, JaegerHttpClient.findTraces,
      JaegerGrpcClient.handleError, JaegerHttpClient.handleError,
      JaegerHttpClient.isTimeoutErr,
      hg, hcode, hh2, GRPC_UNIMPLEMENTED, GRPC_DEADLINE_EXCEEDED,
      HTTP_STATUS_CODE_NOT_FOUND]

/-- Witness for C2 at a 90500 ms timeout (N rounds to 91) with a concrete
deadline-exceeded gRPC error and a concrete axios timeout error. -/
theorem C2_timeout_message_witness :
    (({ code := some GRPC_DEADLINE_EXCEEDED } : GrpcErr).code =
      some GRPC_DEADLINE_EXCEEDED) ∧
    (({ code := some "ECONNABORTED" } : HttpErr).code = some "ECONNABORTED") ∧
    (JaegerHttpClient.errStatus { code := some "ECONNABORTED" } ≠
      some HTTP_STATUS_CODE_NOT_FOUND) ∧
    JaegerGrpcClient.findTraces 90500 (.error { code := some GRPC_DEADLINE_EXCEEDED }) =
      .error { code := none, message := formatRequestTimedOutMessage 90500 } ∧
    JaegerHttpClient.findTraces 90500 (.error { code := some "ECONNABORTED" }) =
      .error { status := none, responseStatus := none, code := none,
               message := formatRequestTimedOutMessage 90500 } ∧
    formatRequestTimedOutMessage 90500 = "Request timed out after 91s" :=
  ⟨rfl, rfl, by decide,
    (C2_timeout_message 90500 { code := some GRPC_DEADLINE_EXCEEDED }
        { code := some "ECONNABORTED" } rfl rfl (by decide)).2.2.2.2.1,
    (C2_timeout_message 90500 { code := some GRPC_DEADLINE_EXCEEDED }
        { code := some "ECONNABORTED" } rfl rfl (by decide)).2.2.2.2.2.2.2.2,
    by decide⟩

/-- Claim C3: for every finite sequence of streamed chunks of trace-fetch or
trace-search, the streaming client resolves only after end-of-stream with an
aggregate concatenating every chunk's `resourceSpans` in arrival order (the
aggregate count is the sum over chunks), and an error event at any point
fails the whole call without delivering a partial result. -/
theorem C3_stream_aggregation (cs : List TracesData) (e : GrpcErr)
    (rest : List JaegerGrpcClient.StreamEvent) :
    JaegerGrpcClient.runStream (cs.map .data ++ [.endOfStream]) [] =
      some (.ok (JaegerGrpcClient.mergeChunks cs)) ∧
    JaegerGrpcClient.mergeChunks cs =
      { resourceSpans := some (cs.flatMap fun c => c.resourceSpans.getD []) } ∧
    (cs.flatMap fun c => c.resourceSpans.getD []).length =
      (cs.map fun c => (c.resourceSpans.getD []).length).sum ∧
    JaegerGrpcClient.runStream (cs.map .data) [] = none ∧
    JaegerGrpcClient.runStream (cs.map .data ++ .error e :: rest) [] =
      some (.error e) := by
  refine ⟨?_, rfl, ?_, ?_, ?_⟩
  · rw [runStream_past_data]
    simp [JaegerGrpcClient.runStream, JaegerGrpcClient.mergeChunks]
  · induction cs with
    | nil => simp
    | cons c t ih => simp [ih]
  · have h := runStream_past_data cs [] []
    simpa [JaegerGrpcClient.runStream] using h
  · rw [runStream_past_data]
    simp [JaegerGrpcClient.runStream]

/-- Claim C4: URL/port resolution satisfies the three spec test vectors, and
for every endpoint of the form `pre:<digits>` the embedded port is stripped
from the host and takes precedence over any `configPort` (the resolved host
is the prefix, possibly with an `http://`/`https://` scheme prepended when
the endpoint had none). -/
theorem C4_url_port_resolution (pre : String) (ds : List Char) (cfg : Option Nat)
    (hpre : pre ≠ "") (hne : ds ≠ []) (hd : ∀ c ∈ ds, c.isDigit = true) :
    parseUrlAndPort "localhost" none = ⟨"http://localhost", 16686⟩ ∧
    isSecureUrl "localhost" 16686 = false ∧
    parseUrlAndPort "jaeger.example.com" (some 443) =
      ⟨"https://jaeger.example.com", 443⟩ ∧
    isSecureUrl "jaeger.example.com" 443 = true ∧
    parseUrlAndPort "http://localhost:16764" none = ⟨"http://localhost", 16764⟩ ∧
    isSecureUrl "http://localhost:16764" 16764 = false ∧
    (∃ X : String,
      (X = pre ∨ X = "http://" ++ pre ∨ X = "https://" ++ pre) ∧
      parseUrlAndPort (pre ++ ":" ++ String.mk ds) cfg = ⟨X, natOfDigits ds⟩) := by
  refine ⟨by decide, by decide, by decide, by decide, by decide, by decide, ?_⟩
  have hpd : pre.data ≠ [] := by
    intro h
    exact hpre (by cases pre with | mk d => simp_all)
  by_cases hs : hasSchemaSeparator (pre ++ ":" ++ String.mk ds) = true
  · refine ⟨pre, .inl rfl, ?_⟩
    unfold parseUrlAndPort
    simp [hs, matchPortSuffix_strip pre ds hpd hne hd]
  · by_cases hc : cfg = some 443
    · refine ⟨"https://" ++ pre, .inr (.inr rfl), ?_⟩
      unfold parseUrlAndPort
      have hassoc : "https://" ++ (pre ++ ":" ++ String.mk ds) =
          ("https://" ++ pre) ++ ":" ++ String.mk ds := by
        simp [String.append_assoc]
      have hX : ("https://" ++ pre).data ≠ [] := by
        simp [String.data_append]
      simp [hs, hc, hassoc, matchPortSuffix_strip _ ds hX hne hd]
    · refine ⟨"http://" ++ pre, .inr (.inl rfl), ?_⟩
      unfold parseUrlAndPort
      have hassoc : "http://" ++ (pre ++ ":" ++ String.mk ds) =
          ("http://" ++ pre) ++ ":" ++ String.mk ds := by
        simp [String.append_assoc]
      have hX : ("http://" ++ pre).data ≠ [] := by
        simp [String.data_append]
      simp [hs, hc, hassoc, matchPortSuffix_strip _ ds hX hne hd]

/-- Witness for C4: the embedded port 16764 wins over a conflicting
configured port 9999. -/
theorem C4_url_port_resolution_witness :
    ("localhost" : String) ≠ "" ∧
    (['1', '6', '7', '6', '4'] : List Char) ≠ [] ∧
    (∀ c ∈ (['1', '6', '7', '6', '4'] : List Char), c.isDigit = true) ∧
    (∃ X : String,
      (X = "localhost" ∨ X = "http://" ++ "localhost" ∨ X = "https://" ++ "localhost") ∧
      parseUrlAndPort ("localhost" ++ ":" ++ String.mk ['1', '6', '7', '6', '4'])
        (some 9999) = ⟨X, natOfDigits ['1', '6', '7', '6', '4']⟩) :=
  ⟨by decide, by decide, by decide,
    (C4_url_port_resolution "localhost" ['1', '6', '7', '6', '4'] (some 9999)
        (by decide) (by decide) (by decide)).2.2.2.2.2.2⟩

/-- Counterexample to claim C5 as stated: the canonical strings
`unspecified` and `unset` map to wire number 0 per the fixed table, but
`toSpanKind`/`toStatusCode` treat the number 0 as JS-falsy and decode it to
`undefined`, not back to the original enum value. -/
theorem C5_counterexample :
    toSpanKind (some (.num (spanKindNumber .UNSPECIFIED))) ≠ some .UNSPECIFIED ∧
    toStatusCode (some (.num (statusCodeNumber .UNSET))) ≠ some .UNSET := by
  decide

/-- Claim C5 (amended): the string form of every span kind and every status
code — all six kinds and all three codes, `unspecified` and `unset`
included — decodes back to the enum value; the numeric wire form decodes
back for the five kinds other than `unspecified` and the two codes other
than `unset`, while wire number 0 decodes to `undefined` on both tables. -/
theorem C5_enum_roundtrip (k : SpanKind) (c : StatusCode)
    (hk : k ≠ .UNSPECIFIED) (hc : c ≠ .UNSET) :
    (∀ k2 : SpanKind, toSpanKind (some (.str k2.toStr)) = some k2) ∧
    (∀ c2 : StatusCode, toStatusCode (some (.str c2.toStr)) = some c2) ∧
    toSpanKind (some (.num (spanKindNumber k))) = some k ∧
    toStatusCode (some (.num (statusCodeNumber c))) = some c ∧
    toSpanKind (some (.num (spanKindNumber .UNSPECIFIED))) = none ∧
    toStatusCode (some (.num (statusCodeNumber .UNSET))) = none := by
  refine ⟨?_, ?_, ?_, ?_, by decide, by decide⟩
  · intro k2; cases k2 <;> decide
  · intro c2; cases c2 <;> decide
  · cases k
    · exact absurd rfl hk
    all_goals decide
  · cases c
    · exact absurd rfl hc
    all_goals decide

/-- Witness for C5: the string direction at `unspecified`, `server` and
`unset`, and the numeric direction at `server` and `error`. -/
theorem C5_enum_roundtrip_witness :
    (SpanKind.SERVER ≠ .UNSPECIFIED) ∧ (StatusCode.ERROR ≠ .UNSET) ∧
    toSpanKind (some (.str SpanKind.UNSPECIFIED.toStr)) = some .UNSPECIFIED ∧
    toSpanKind (some (.str SpanKind.SERVER.toStr)) = some .SERVER ∧
    toStatusCode (some (.str StatusCode.UNSET.toStr)) = some .UNSET ∧
    toSpanKind (some (.num (spanKindNumber .SERVER))) = some .SERVER ∧
    toStatusCode (some (.num (statusCodeNumber .ERROR))) = some .ERROR :=
  ⟨by decide, by decide,
    (C5_enum_roundtrip .SERVER .ERROR (by decide) (by decide)).1 .UNSPECIFIED,
    (C5_enum_roundtrip .SERVER .ERROR (by decide) (by decide)).1 .SERVER,
    (C5_enum_roundtrip .SERVER .ERROR (by decide) (by decide)).2.1 .UNSET,
    (C5_enum_roundtrip .SERVER .ERROR (by decide) (by decide)).2.2.1,
    (C5_enum_roundtrip .SERVER .ERROR (by decide) (by decide)).2.2.2.1⟩

/-- Counterexample to claim C6 as stated: for the epoch-ms input 0 the
request builders yield `undefined`, not the pair `{seconds: 0, nanos: 0}`
(the JS truthiness guard treats 0 as absent). -/
theorem C6_counterexample :
    JaegerGrpcClient.toTimestamp (some 0) ≠ some { seconds := 0, nanos := 0 } ∧
    JaegerGrpcClient.toDuration (some 0) ≠ some { seconds := 0, nanos := 0 } := by
  decide

/-- Claim C6 (amended): for every positive epoch-ms timestamp or duration
input the streaming request builder produces
`{seconds = floor(ms/1000), nanos = (ms mod 1000) * 1e6}`, and decoding that
pair back to milliseconds yields the original value exactly. -/
theorem C6_timestamp_duration_pairs (ms : Nat) (h : 0 < ms) :
    JaegerGrpcClient.toTimestamp (some ms) =
      some { seconds := ms / 1000, nanos := ms % 1000 * 1000000 } ∧
    JaegerGrpcClient.toDuration (some ms) =
      some { seconds := ms / 1000, nanos := ms % 1000 * 1000000 } ∧
    secondsNanosToMs { seconds := ms / 1000, nanos := ms % 1000 * 1000000 } = ms := by
  have hne : ms ≠ 0 := Nat.pos_iff_ne_zero.mp h
  refine ⟨?_, ?_, ?_⟩
  · simp [JaegerGrpcClient.toTimestamp, hne]
  · simp [JaegerGrpcClient.toDuration, hne]
  · simp [secondsNanosToMs]
    omega

/-- Witness for C6 at 1234 ms. -/
theorem C6_timestamp_duration_pairs_witness :
    0 < 1234 ∧
    JaegerGrpcClient.toTimestamp (some 1234) =
      some { seconds := 1234 / 1000, nanos := 1234 % 1000 * 1000000 } ∧
    secondsNanosToMs { seconds := 1234 / 1000, nanos := 1234 % 1000 * 1000000 } = 1234 :=
  ⟨by decide,
    (C6_timestamp_duration_pairs 1234 (by decide)).1,
    (C6_timestamp_duration_pairs 1234 (by decide)).2.2⟩

/-- Counterexample to claim C7 as stated: a span kind received as the
numeric code 0 (a valid wire code meaning `unspecified`) is not decoded into
its canonical enum string — the truthiness guard in `toSpanKind` makes the
normalizer drop it to `undefined`. -/
theorem C7_counterexample :
    (JaegerHttpClient.normalizeSpan { kind := some (.num 0) }).kind = none ∧
    (JaegerHttpClient.normalizeSpan { kind := some (.num 0) }).kind ≠
      some (.str SpanKind.UNSPECIFIED.toStr) := by
  constructor
  · simp [JaegerHttpClient.normalizeSpan, toSpanKind]
  · simp [JaegerHttpClient.normalizeSpan, toSpanKind]

/-- Claim C7 (amended): in REST responses every attribute whose `intValue`
arrives as a JSON numeral string, and every attribute whose `doubleValue`
arrives as a JSON numeral string, is coerced to the number the string
denotes (`parseInt` for the integer field, `parseFloat` for the double
field, the other value fields untouched); a span kind received as a
non-zero in-range numeric code is decoded into its canonical enum string,
while code 0 and every code outside the fixed table are dropped to absent. -/
theorem C7_rest_normalization (a b : HAttribute) (va vb : HValue) (s t : String)
    (n : Int) (q q2 : ℚ) (k : SpanKind) (sp : HSpan)
    (hva : a.value = some va)
    (hiva : va.intValue = some (.str s)) (hpi : jsParseInt s = some n)
    (hvb : b.value = some vb)
    (hdvb : vb.doubleValue = some (.str t)) (hpf : jsParseFloat t = some q)
    (hk : k ≠ .UNSPECIFIED) (hsk : sp.kind = some (.num (spanKindNumber k)))
    (hq2 : spanKindMapByNumber q2 = none) :
    ((JaegerHttpClient.normalizeAttribute a).value.bind (·.intValue)) =
      some (.num (n : ℚ)) ∧
    ((JaegerHttpClient.normalizeAttribute a).value.bind (·.stringValue)) =
      va.stringValue ∧
    ((JaegerHttpClient.normalizeAttribute a).value.bind (·.boolValue)) =
      va.boolValue ∧
    ((JaegerHttpClient.normalizeAttribute b).value.bind (·.doubleValue)) =
      some (.num q) ∧
    ((JaegerHttpClient.normalizeAttribute b).value.bind (·.stringValue)) =
      vb.stringValue ∧
    ((JaegerHttpClient.normalizeAttribute b).value.bind (·.boolValue)) =
      vb.boolValue ∧
    (JaegerHttpClient.normalizeSpan sp).kind = some (.str k.toStr) ∧
    (JaegerHttpClient.normalizeSpan { kind := some (.num 0) }).kind = none ∧
    (JaegerHttpClient.normalizeSpan { kind := some (.num q2) }).kind = none := by
  have hpi2 : jvParseInt s = .num (n : ℚ) := by simp [jvParseInt, hpi]
  have hpf2 : jvParseFloat t = .num q := by simp [jvParseFloat, hpf]
  refine ⟨?_, ?_, ?_, ?_, ?_, ?_, ?_, ?_, ?_⟩
  · rcases hdd : va.doubleValue with _ | (u | r | bb | _) <;>
      simp [JaegerHttpClient.normalizeAttribute, hva, hiva, hdd, hpi2]
  · rcases hdd : va.doubleValue with _ | (u | r | bb | _) <;>
      simp [JaegerHttpClient.normalizeAttribute, hva, hiva, hdd, hpi2]
  · rcases hdd : va.doubleValue with _ | (u | r | bb | _) <;>
      simp [JaegerHttpClient.normalizeAttribute, hva, hiva, hdd, hpi2]
  · rcases hii : vb.intValue with _ | (u | r | bb | _) <;>
      simp [JaegerHttpClient.normalizeAttribute, hvb, hii, hdvb, hpf2]
  · rcases hii : vb.intValue with _ | (u | r | bb | _) <;>
      simp [JaegerHttpClient.normalizeAttribute, hvb, hii, hdvb, hpf2]
  · rcases hii : vb.intValue with _ | (u | r | bb | _) <;>
      simp [JaegerHttpClient.normalizeAttribute, hvb, hii, hdvb, hpf2]
  · have hdec : toSpanKind (some (.num (spanKindNumber k))) = some k := by
      cases k
      · exact absurd rfl hk
      all_goals decide
    simp [JaegerHttpClient.normalizeSpan, hsk, hdec]
  · simp [JaegerHttpClient.normalizeSpan, toSpanKind]
  · have hz : toSpanKind (some (.num q2)) = none := by
      by_cases h0 : q2 = 0
      · simp [toSpanKind, h0]
      · simp [toSpanKind, h0, hq2]
    simp [JaegerHttpClient.normalizeSpan, hz]

/-- Witness for C7: one attribute whose only serialized value is the string
"42" in `intValue`, one whose only serialized value is the string "3.5" in
`doubleValue`, a span whose kind arrives as the in-range code 3, and the
out-of-range code 7. -/
theorem C7_rest_normalization_witness :
    jsParseInt "42" = some 42 ∧
    jsParseFloat "3.5" = some (7 / 2 : ℚ) ∧
    spanKindMapByNumber 7 = none ∧
    ((JaegerHttpClient.normalizeAttribute
        { value := some { intValue := some (.str "42") } }).value.bind
      (·.intValue)) = some (.num (42 : ℚ)) ∧
    ((JaegerHttpClient.normalizeAttribute
        { value := some { doubleValue := some (.str "3.5") } }).value.bind
      (·.doubleValue)) = some (.num (7 / 2 : ℚ)) ∧
    (JaegerHttpClient.normalizeSpan
        { kind := some (.num (spanKindNumber .CLIENT)) }).kind =
      some (.str SpanKind.CLIENT.toStr) ∧
    (JaegerHttpClient.normalizeSpan { kind := some (.num 7) }).kind = none := by
  have hpf : jsParseFloat "3.5" = some (7 / 2 : ℚ) := by
    have h35 : jsParseFloat "3.5" =
        some ((natOfDigits ['3'] : ℚ) + fracValue ['5']) := rfl
    have e1 : List.takeWhile Char.isDigit ['5'] = ['5'] := by decide
    have h3 : '3'.toNat - 48 = 3 := by decide
    have h5 : '5'.toNat - 48 = 5 := by decide
    rw [h35]
    simp only [fracValue, e1, natOfDigits, List.foldl, h3, h5]
    norm_num
  have happ := C7_rest_normalization
    { value := some { intValue := some (.str "42") } }
    { value := some { doubleValue := some (.str "3.5") } }
    { intValue := some (.str "42") }
    { doubleValue := some (.str "3.5") }
    "42" "3.5" 42 (7 / 2 : ℚ) 7 .CLIENT
    { kind := some (.num (spanKindNumber .CLIENT)) }
    rfl rfl (by decide) rfl rfl hpf (by decide) rfl (by decide)
  exact ⟨by decide, hpf, by decide, happ.1, happ.2.2.2.1,
    happ.2.2.2.2.2.2.1, happ.2.2.2.2.2.2.2.2⟩

/-- Claim C8: every binary trace/span/parent-span id decoded from the
streaming transport becomes the lowercase hex string of its bytes (two hex
characters per byte, faithfully decodable back to the bytes), and the empty
string — never null or absent — when the binary id is missing or
zero-length. -/
theorem C8_id_hex_encoding (l : List Nat) (hb : ∀ b ∈ l, b < 256) :
    JaegerGrpcClient.toIdString none = "" ∧
    JaegerGrpcClient.toIdString (some []) = "" ∧
    (JaegerGrpcClient.toIdString (some l)).toList.length = 2 * l.length ∧
    (∀ c ∈ (JaegerGrpcClient.toIdString (some l)).toList, isLowerHexChar c = true) ∧
    hexDecode (JaegerGrpcClient.toIdString (some l)).toList = some l ∧
    (JaegerGrpcClient.toSpan { traceId := some l }).traceId =
      JaegerGrpcClient.toIdString (some l) := by
  have ht : (JaegerGrpcClient.toIdString (some l)).toList = l.flatMap byteHexChars := by
    cases l <;> simp [JaegerGrpcClient.toIdString]
  rw [ht]
  exact ⟨rfl, rfl, idHex_length l, idHex_lower l hb, idHex_decode l hb, rfl⟩

/-- Witness for C8 at the two-byte id 0xAB 0xCD, whose hex form is "abcd". -/
theorem C8_id_hex_encoding_witness :
    (∀ b ∈ [171, 205], b < 256) ∧
    JaegerGrpcClient.toIdString (some [171, 205]) = "abcd" ∧
    (JaegerGrpcClient.toIdString (some [171, 205])).toList.length = 2 * 2 ∧
    hexDecode (JaegerGrpcClient.toIdString (some [171, 205])).toList =
      some [171, 205] :=
  ⟨by decide, by decide,
    (C8_id_hex_encoding [171, 205] (by decide)).2.2.1,
    (C8_id_hex_encoding [171, 205] (by decide)).2.2.2.2.1⟩

/-- Counterexample to claim C9 as stated: a key-value pair carrying exactly
the wire value `boolValue = false` decodes to an attribute with no populated
field at all — the `|| undefined` filter drops false booleans (and empty
strings) instead of keeping exactly one field populated. -/
theorem C9_counterexample :
    countPopulated (JaegerGrpcClient.toAttribute
      { key := "flag", value := some { boolValue := some false } }).value = 0 ∧
    (JaegerGrpcClient.toAttribute
      { key := "flag", value := some { boolValue := some false } }).value.boolValue
      = none := by
  decide

/-- Claim C9 (amended): every attribute decoded from a key-value pair
carrying exactly one wire value has exactly that field populated — including
zero numbers, both plain and `Long` — except that a false boolean or an
empty string wire value yields an attribute with no populated field. -/
theorem C9_attribute_exactly_one (key s : String) (q p : ℚ) (n m : Int)
    (hs : s ≠ "") :
    ((JaegerGrpcClient.toAttribute
        { key := key, value := some { stringValue := some s } }).value =
        { stringValue := some s } ∧
      countPopulated (JaegerGrpcClient.toAttribute
        { key := key, value := some { stringValue := some s } }).value = 1) ∧
    ((JaegerGrpcClient.toAttribute
        { key := key, value := some { boolValue := some true } }).value =
        { boolValue := some true } ∧
      countPopulated (JaegerGrpcClient.toAttribute
        { key := key, value := some { boolValue := some true } }).value = 1) ∧
    ((JaegerGrpcClient.toAttribute
        { key := key, value := some { intValue := some (.num q) } }).value =
        { intValue := some q } ∧
      countPopulated (JaegerGrpcClient.toAttribute
        { key := key, value := some { intValue := some (.num q) } }).value = 1) ∧
    ((JaegerGrpcClient.toAttribute
        { key := key, value := some { intValue := some (.long n) } }).value =
        { intValue := some (n : ℚ) } ∧
      countPopulated (JaegerGrpcClient.toAttribute
        { key := key, value := some { intValue := some (.long n) } }).value = 1) ∧
    ((JaegerGrpcClient.toAttribute
        { key := key, value := some { doubleValue := some (.num p) } }).value =
        { doubleValue := some p } ∧
      countPopulated (JaegerGrpcClient.toAttribute
        { key := key, value := some { doubleValue := some (.num p) } }).value = 1) ∧
    ((JaegerGrpcClient.toAttribute
        { key := key, value := some { doubleValue := some (.long m) } }).value =
        { doubleValue := some (m : ℚ) } ∧
      countPopulated (JaegerGrpcClient.toAttribute
        { key := key, value := some { doubleValue := some (.long m) } }).value = 1) ∧
    countPopulated (JaegerGrpcClient.toAttribute
      { key := key, value := some { boolValue := some false } }).value = 0 ∧
    countPopulated (JaegerGrpcClient.toAttribute
      { key := key, value := some { stringValue := some "" } }).value = 0 := by
  refine ⟨⟨?_, ?_⟩, ⟨?_, ?_⟩, ⟨?_, ?_⟩, ⟨?_, ?_⟩, ⟨?_, ?_⟩, ⟨?_, ?_⟩, ?_, ?_⟩ <;>
    simp [JaegerGrpcClient.toAttribute, truthyStr, truthyBool,
      JaegerGrpcClient.toNumber, countPopulated, hs]

/-- Witness for C9 at a non-empty string value and a zero `Long` integer
value. -/
theorem C9_attribute_exactly_one_witness :
    ("x" : String) ≠ "" ∧
    countPopulated (JaegerGrpcClient.toAttribute
      { key := "k", value := some { stringValue := some "x" } }).value = 1 ∧
    ((JaegerGrpcClient.toAttribute
        { key := "k", value := some { intValue := some (.long 0) } }).value =
        { intValue := some ((0 : Int) : ℚ) } ∧
      countPopulated (JaegerGrpcClient.toAttribute
        { key := "k", value := some { intValue := some (.long 0) } }).value = 1) :=
  ⟨by decide,
    (C9_attribute_exactly_one "k" "x" 0 0 0 0 (by decide)).1.2,
    (C9_attribute_exactly_one "k" "x" 0 0 0 0 (by decide)).2.2.2.1⟩

/-- Claim C10: an epoch-ms timestamp or duration input equal to 0 is treated
as absent by all four request-side converters — they return `undefined`
rather than `{seconds: 0, nanos: 0}`, the epoch ISO string, or "0ms" — so a
zero filter value produces an unfiltered request. -/
theorem C10_zero_input_treated_as_absent :
    JaegerGrpcClient.toTimestamp (some 0) = none ∧
    JaegerGrpcClient.toDuration (some 0) = none ∧
    JaegerHttpClient.toDateTimeString (some 0) = none ∧
    JaegerHttpClient.toDurationUnit (some 0) = none := by
  decide

end Jaeger
